import Mathlib

/-!
Verification development for `libs/filamentjs/utilities.js` (Filament's
JavaScript utility layer): buffer marshalling wrappers, the icosphere
generator, half-float packing, and the KTX texture dispatch.

Modelling conventions.  JavaScript numbers are modelled as exact rationals
(`ℚ`); IEEE-754 rounding of the primitive arithmetic is not modelled.  The
external glMatrix routines (`vec3.normalize`, the tangent-frame quaternion
computation) and IEEE-754 float32 byte decoding are taken as parameters of
the definitions, since they are floating-point code living outside the
repository.  Typed arrays and the WASM heap are modelled at byte level by
explicit lists.  Uint16Array stores reduce the stored value modulo 2^16,
exactly as JavaScript's ToUint16 does on integral values.
-/

/-! ## Math extensions (`clamp`, `Filament.packSnorm16`) -/

/-- The local helper `clamp(v, least, most) = Math.max(Math.min(most, v), least)`
from utilities.js. -/
def clamp (v least most : ℚ) : ℚ := max (min most v) least

/-- JavaScript's `Math.round`: round half toward positive infinity,
`Math.round(x) = Math.floor(x + 0.5)` for finite arguments. -/
def jsRound (x : ℚ) : Int := Int.floor (x + 1/2)

/-- The source `Filament.packSnorm16 = Math.round(clamp(value, -1.0, 1.0) * 32767.0)`. -/
def Filament.packSnorm16 (value : ℚ) : Int := jsRound (clamp value (-1) 1 * 32767)

/-- JavaScript truncation toward zero (the integer-conversion step of
ToUint8 / ToUint16) on a rational value. -/
def jsTrunc (q : ℚ) : Int := if 0 ≤ q then Int.floor q else -Int.floor (-q)

/-- JavaScript ToUint8: truncate toward zero, then reduce modulo 2^8.
This is the per-element conversion performed by `new Uint8Array(typedarray)`. -/
def jsToUint8 (q : ℚ) : Nat := ((jsTrunc q) % 256).toNat

/-- JavaScript ToUint16 on an integral value: reduce modulo 2^16.  This is the
conversion applied by every store into a `Uint16Array`. -/
def toUint16 (i : Int) : Nat := (i % 65536).toNat

/-! ## Typed arrays and the WASM heap

A typed array either views the engine's WASM heap (`Filament.HEAPU32.buffer`)
or owns a private `ArrayBuffer`.  Only the element kinds exercised by the
file's callers are modelled. -/

/-- Where a typed array's bytes live: the engine's WASM heap, or a private
ArrayBuffer with the given byte contents. -/
inductive TAStore where
  | heap : TAStore
  | own : List Nat → TAStore
deriving DecidableEq

/-- Element kinds of the typed arrays used by utilities.js callers. -/
inductive ElemKind where
  | u8 : ElemKind
  | u16 : ElemKind
  | f32 : ElemKind
deriving DecidableEq

/-- Bytes per element. -/
def elemSize : ElemKind → Nat
  | .u8 => 1
  | .u16 => 2
  | .f32 => 4

/-- A JavaScript typed array: backing store, byte offset, element count,
element kind, and whether `typedarray.buffer instanceof ArrayBuffer` holds. -/
structure TypedArray where
  store : TAStore
  byteOffset : Nat
  length : Nat
  kind : ElemKind
  abBacked : Bool
deriving DecidableEq

/-- `typedarray.byteLength`. -/
def TypedArray.byteLength (ta : TypedArray) : Nat := ta.length * elemSize ta.kind

/-- Resolve a store to its byte contents given the current heap bytes. -/
def storeBytes (heap : List Nat) : TAStore → List Nat
  | .heap => heap
  | .own bs => bs

/-- The bytes a typed array views, given the current heap bytes: the slice
`[byteOffset, byteOffset + byteLength)` of its backing buffer. -/
def bytesOf (heap : List Nat) (ta : TypedArray) : List Nat :=
  ((storeBytes heap ta.store).drop ta.byteOffset).take ta.byteLength

/-- The byte chunk of element `i` of a typed array. -/
def elemBytes (heap : List Nat) (ta : TypedArray) (i : Nat) : List Nat :=
  ((storeBytes heap ta.store).drop (ta.byteOffset + i * elemSize ta.kind)).take
    (elemSize ta.kind)

/-- Decode one element from its byte chunk.  Integer kinds decode
little-endian; float32 decoding is IEEE-754 and is taken as the parameter
`fdec`, since it is not modelled. -/
def decodeElem (fdec : List Nat → ℚ) (k : ElemKind) (bs : List Nat) : ℚ :=
  match k with
  | .u8 => (bs.getD 0 0 : ℚ)
  | .u16 => ((bs.getD 0 0 + 256 * bs.getD 1 0 : Nat) : ℚ)
  | .f32 => fdec bs

/-- `new Uint8Array(typedarray)`: a fresh Uint8Array of the SAME element
count, each element converted by ToUint8 of the source element's value (this
is JavaScript's typed-array-of-typed-array constructor, which converts
per element and does not copy bytes). -/
def convertToU8 (fdec : List Nat → ℚ) (heap : List Nat) (ta : TypedArray) : TypedArray :=
  { store := .own ((List.range ta.length).map
      (fun i => jsToUint8 (decodeElem fdec ta.kind (elemBytes heap ta i)))),
    byteOffset := 0,
    length := ta.length,
    kind := .u8,
    abBacked := true }

/-- The test `Filament.HEAPU32.buffer == typedarray.buffer`. -/
def aliasesHeap (ta : TypedArray) : Bool :=
  match ta.store with
  | .heap => true
  | .own _ => false

/-- The two `console.assert` conditions at the top of `Filament.Buffer`:
`typedarray.buffer instanceof ArrayBuffer` and `typedarray.byteLength > 0`. -/
def Filament.bufferAsserts (typedarray : TypedArray) : Bool :=
  typedarray.abBacked && decide (0 < typedarray.byteLength)

/-- The two `console.assert` conditions at the top of `Filament.PixelBuffer`
(textually identical to the ones in `Filament.Buffer`). -/
def Filament.pixelBufferAsserts (typedarray : TypedArray) : Bool :=
  typedarray.abBacked && decide (0 < typedarray.byteLength)

/-- `Filament.Buffer`, modelled as the bytes the returned BufferDescriptor
ends up holding.  `heap0` is the heap at call time; `heap1` is the heap after
`new Filament.driver$BufferDescriptor(...)` allocated descriptor memory
(allocation may grow or move the heap, which is exactly why the source makes
a temporary copy first).  If the input aliases the heap the source runs
`typedarray = new Uint8Array(typedarray)`; the final
`bd.getBytes().set(new Uint8Array(ta.buffer, ta.byteOffset, ta.byteLength))`
then reads `ta`'s buffer in the post-allocation state. -/
def Filament.Buffer (fdec : List Nat → ℚ) (heap0 heap1 : List Nat)
    (typedarray : TypedArray) : List Nat :=
  let ta := if aliasesHeap typedarray then convertToU8 fdec heap0 typedarray
            else typedarray
  bytesOf heap1 ta

/-- The pixel data formats used by utilities.js. -/
inductive PixelDataFormat where
  | RGB : PixelDataFormat
  | RGBA : PixelDataFormat
  | RGBM : PixelDataFormat
deriving DecidableEq

/-- The pixel data types used by utilities.js. -/
inductive PixelDataType where
  | UBYTE : PixelDataType
deriving DecidableEq

/-- `Filament.PixelBuffer`, modelled as the bytes the returned
PixelBufferDescriptor ends up holding; the body of the source function is the
same copy logic as `Filament.Buffer`, with `format` and `datatype` passed on
to the descriptor constructor. -/
def Filament.PixelBuffer (fdec : List Nat → ℚ) (heap0 heap1 : List Nat)
    (typedarray : TypedArray) (_format : PixelDataFormat)
    (_datatype : PixelDataType) : List Nat :=
  let ta := if aliasesHeap typedarray then convertToU8 fdec heap0 typedarray
            else typedarray
  bytesOf heap1 ta

/-! ## IcoSphere

`Filament.IcoSphere(nsubdivs)` builds a flat Float32Array of vertex
coordinates, a Uint16Array of triangle indices, and a Uint16Array of packed
tangent quaternions.  Coordinates are modelled as rationals, the
glMatrix normalization `vec3.normalize` (floating point, external library)
is the parameter `norm`, and the tangent-frame quaternion computation
(`vec3.cross` / `quat.fromMat3`, also glMatrix) is the parameter `tq`. -/

/-- A vertex: one XYZ coordinate triple. -/
abbrev V3 := ℚ × ℚ × ℚ

/-- `vec3.add`, componentwise. -/
def vec3add (a b : V3) : V3 := (a.1 + b.1, a.2.1 + b.2.1, a.2.2 + b.2.2)

/-- Flatten one coordinate triple into three consecutive array entries. -/
def flat3 (v : V3) : List ℚ := [v.1, v.2.1, v.2.2]

/-- The triple `verts.subarray(3*i, 3*i + 3)`: the coordinates of vertex `i`
in a flat coordinate array.  Out-of-range reads (JavaScript `undefined`)
default to 0; they never occur in the proved statements. -/
def vertAt (verts : List ℚ) (i : Nat) : V3 :=
  (verts.getD (3*i) 0, verts.getD (3*i + 1) 0, verts.getD (3*i + 2) 0)

/-- The mutable state of an IcoSphere under construction: `this.vertices`
(flat XYZ coordinates) and `this.triangles` (flat index triples). -/
structure Mesh where
  vertices : List ℚ
  triangles : List Nat
deriving DecidableEq

/-- The nine new coordinate entries the subdivision loop body writes for
source triangle `tri`: the three normalized edge midpoints
`v3 = normalize(v0 + v1)`, `v4 = normalize(v1 + v2)`, `v5 = normalize(v2 + v0)`
at destination slots `i3, i4, i5`. -/
def midVertsAt (norm : V3 → V3) (m : Mesh) (tri : Nat) : List ℚ :=
  let i0 := m.triangles.getD (3*tri) 0
  let i1 := m.triangles.getD (3*tri + 1) 0
  let i2 := m.triangles.getD (3*tri + 2) 0
  let v0 := vertAt m.vertices i0
  let v1 := vertAt m.vertices i1
  let v2 := vertAt m.vertices i2
  flat3 (norm (vec3add v0 v1)) ++ flat3 (norm (vec3add v1 v2)) ++
    flat3 (norm (vec3add v2 v0))

/-- The twelve index entries the subdivision loop body writes into the
destination Uint16Array for source triangle `tri`:
`(i0/3, i3/3, i5/3), (i3/3, i1/3, i4/3), (i5/3, i3/3, i4/3), (i2/3, i5/3, i4/3)`
with `i3/3 = nsrcverts + 3*tri`, `i4/3 = i3/3 + 1`, `i5/3 = i3/3 + 2`.
Every store into the Uint16Array reduces the value modulo 2^16. -/
def subTrisAt (nsrcverts : Nat) (ts : List Nat) (tri : Nat) : List Nat :=
  let i0 := ts.getD (3*tri) 0
  let i1 := ts.getD (3*tri + 1) 0
  let i2 := ts.getD (3*tri + 2) 0
  let j3 := (nsrcverts + 3*tri) % 65536
  let j4 := (nsrcverts + 3*tri + 1) % 65536
  let j5 := (nsrcverts + 3*tri + 2) % 65536
  [i0 % 65536, j3, j5, j3, i1 % 65536, j4, j5, j3, j4, i2 % 65536, j5, j4]

/-- `Filament.IcoSphere.prototype.subdivide`: allocates
`dstverts` of `(nsrcverts + nsrctris*3) * 3` floats, copies the old vertices
to its front (`dstverts.set(srcverts)`), appends three normalized edge
midpoints per source triangle at slots `i3 = nsrcverts*3 + 9*tri` onward, and
rebuilds the triangle array with four triangles per source triangle. -/
def subdivide (norm : V3 → V3) (m : Mesh) : Mesh :=
  let nsrctris := m.triangles.length / 3
  let nsrcverts := m.vertices.length / 3
  { vertices := m.vertices ++ (List.range nsrctris).flatMap (midVertsAt norm m),
    triangles := (List.range nsrctris).flatMap (subTrisAt nsrcverts m.triangles) }

/-- The icosahedron constant `X = .525731112119133606` as an exact decimal. -/
def icoX : ℚ := 525731112119133606 / 1000000000000000000

/-- The icosahedron constant `Z = .850650808352039932` as an exact decimal. -/
def icoZ : ℚ := 850650808352039932 / 1000000000000000000

/-- The 36 coordinates of the base icosahedron's 12 vertices, exactly as
listed in the `Filament.IcoSphere` constructor. -/
def baseVertices : List ℚ :=
  [-icoX, 0, icoZ,  icoX, 0, icoZ,  -icoX, 0, -icoZ,  icoX, 0, -icoZ,
   0, icoZ, icoX,  0, icoZ, -icoX,  0, -icoZ, icoX,  0, -icoZ, -icoX,
   icoZ, icoX, 0,  -icoZ, icoX, 0,  icoZ, -icoX, 0,  -icoZ, -icoX, 0]

/-- The 60 indices of the base icosahedron's 20 triangles, exactly as listed
in the `Filament.IcoSphere` constructor. -/
def baseTriangles : List Nat :=
  [1, 4, 0,  4, 9, 0,  4, 5, 9,  8, 5, 4,  1, 8, 4,
   1, 10, 8,  10, 3, 8,  8, 3, 5,  3, 2, 5,  3, 7, 2,
   3, 10, 7,  10, 6, 7,  6, 11, 7,  6, 0, 11,  6, 1, 0,
   10, 1, 6,  11, 0, 9,  2, 11, 9,  5, 2, 9,  11, 2, 7]

/-- The mesh after the constructor's `while (nsubdivs-- > 0) this.subdivide()`
loop: the base icosahedron subdivided `n` times. -/
def icosphereMesh (norm : V3 → V3) : Nat → Mesh
  | 0 => { vertices := baseVertices, triangles := baseTriangles }
  | n + 1 => subdivide norm (icosphereMesh norm n)

/-- The tangents Uint16Array built by the constructor after subdividing:
`4 * nverts` entries, four per vertex, holding the vertex's tangent-frame
quaternion packed by `vec4.packSnorm16` (each component run through
`Filament.packSnorm16` and stored into the Uint16Array, i.e. reduced by
ToUint16).  The quaternion computation itself (glMatrix `normalize`, `cross`,
`quat.fromMat3`) is the parameter `tq`. -/
def tangentsOf (tq : V3 → ℚ × ℚ × ℚ × ℚ) (m : Mesh) : List Nat :=
  (List.range (m.vertices.length / 3)).flatMap (fun i =>
    let q := tq (vertAt m.vertices i)
    [toUint16 (Filament.packSnorm16 q.1), toUint16 (Filament.packSnorm16 q.2.1),
     toUint16 (Filament.packSnorm16 q.2.2.1), toUint16 (Filament.packSnorm16 q.2.2.2)])

/-- The three arrays a constructed IcoSphere exposes. -/
structure IcoSphereResult where
  vertices : List ℚ
  triangles : List Nat
  tangents : List Nat
deriving DecidableEq

/-- `Filament.IcoSphere(nsubdivs)`: subdivide the base icosahedron
`nsubdivs` times, then compute one packed tangent quaternion per vertex. -/
def Filament.IcoSphere (norm : V3 → V3) (tq : V3 → ℚ × ℚ × ℚ × ℚ)
    (nsubdivs : Nat) : IcoSphereResult :=
  let m := icosphereMesh norm nsubdivs
  { vertices := m.vertices, triangles := m.triangles, tangents := tangentsOf tq m }

/-- Variant of `subTrisAt` with the Uint16Array store conversion removed:
the indices the loop INTENDS to store, before ToUint16 reduction.  This is
the comparison point for the claim that from the sixth subdivision on the
stored indices no longer denote the intended vertices. -/
def subTrisAtIdeal (nsrcverts : Nat) (ts : List Nat) (tri : Nat) : List Nat :=
  let i0 := ts.getD (3*tri) 0
  let i1 := ts.getD (3*tri + 1) 0
  let i2 := ts.getD (3*tri + 2) 0
  let j3 := nsrcverts + 3*tri
  let j4 := nsrcverts + 3*tri + 1
  let j5 := nsrcverts + 3*tri + 2
  [i0, j3, j5, j3, i1, j4, j5, j3, j4, i2, j5, j4]

/-- `subdivide` with unbounded (intended) index stores. -/
def subdivideIdeal (norm : V3 → V3) (m : Mesh) : Mesh :=
  let nsrctris := m.triangles.length / 3
  let nsrcverts := m.vertices.length / 3
  { vertices := m.vertices ++ (List.range nsrctris).flatMap (midVertsAt norm m),
    triangles := (List.range nsrctris).flatMap (subTrisAtIdeal nsrcverts m.triangles) }

/-- The base icosahedron subdivided `n` times with intended (unreduced)
index stores. -/
def icosphereMeshIdeal (norm : V3 → V3) : Nat → Mesh
  | 0 => { vertices := baseVertices, triangles := baseTriangles }
  | n + 1 => subdivideIdeal norm (icosphereMeshIdeal norm n)

/-! ## KTX texture creation

`Filament.createTextureFromKtx` dispatches on the KTX bundle's
`glInternalFormat`, builds a `Texture` via the engine's builder for the two
supported formats, and logs an error and returns `null` otherwise.  The
engine-side builder and the per-level image uploads are modelled by a record
of the arguments handed to the builder; the error log plus `null` return is
modelled by `Except.error` carrying the logged message. -/

/-- The WebGL enum `gl.RGB`. -/
def GL_RGB : Nat := 0x1907

/-- The WebGL enum `gl.RGBA`. -/
def GL_RGBA : Nat := 0x1908

/-- The fields of `ktx.info()` that `createTextureFromKtx` reads. -/
structure KtxInfo where
  glInternalFormat : Nat
  pixelWidth : Nat
  pixelHeight : Nat
deriving DecidableEq

/-- The KTX bundle operations `createTextureFromKtx` queries. -/
structure KtxBundle where
  info : KtxInfo
  numMipLevels : Nat
  isCubemap : Bool
deriving DecidableEq

/-- `Filament.Texture$InternalFormat` values used by utilities.js. -/
inductive TextureInternalFormat where
  | RGB8 : TextureInternalFormat
  | RGBA8 : TextureInternalFormat
deriving DecidableEq

/-- `Filament.Texture$Sampler` values used by utilities.js. -/
inductive SamplerKind where
  | SAMPLER_CUBEMAP : SamplerKind
  | SAMPLER_2D : SamplerKind
deriving DecidableEq

/-- The arguments `createTextureFromKtx` feeds to
`Filament.Texture.Builder()...build(engine)`. -/
structure TextureSpec where
  width : Nat
  height : Nat
  levels : Nat
  sampler : SamplerKind
  format : TextureInternalFormat
  rgbm : Bool
deriving DecidableEq

/-- `Filament.createTextureFromKtx(ktxdata, engine, options)` after the KTX
bundle has been parsed (bundle parsing is engine-side).  Returns the built
texture's builder arguments together with the pixel-buffer format and type
used for the level uploads, or `Except.error` with the logged message for
any `glInternalFormat` other than `gl.RGB` and `gl.RGBA`. -/
def Filament.createTextureFromKtx (ktx : KtxBundle) (rgbm : Bool) :
    Except String (TextureSpec × PixelDataFormat × PixelDataType) :=
  let ktxformat := ktx.info.glInternalFormat
  let sampler := if ktx.isCubemap then SamplerKind.SAMPLER_CUBEMAP
                 else SamplerKind.SAMPLER_2D
  if ktxformat = GL_RGB then
    Except.ok ({ width := ktx.info.pixelWidth, height := ktx.info.pixelHeight,
                 levels := ktx.numMipLevels, sampler := sampler,
                 format := TextureInternalFormat.RGB8, rgbm := rgbm },
               PixelDataFormat.RGB, PixelDataType.UBYTE)
  else if ktxformat = GL_RGBA then
    Except.ok ({ width := ktx.info.pixelWidth, height := ktx.info.pixelHeight,
                 levels := ktx.numMipLevels, sampler := sampler,
                 format := TextureInternalFormat.RGBA8, rgbm := rgbm },
               (if rgbm then PixelDataFormat.RGBM else PixelDataFormat.RGBA),
               PixelDataType.UBYTE)
  else
    Except.error "Unsupported KTX format."

/-! ## Length and counting lemmas -/

theorem length_flatMap_range_const {α : Type} (f : Nat → List α) (c : Nat)
    (h : ∀ i, (f i).length = c) :
    ∀ k, ((List.range k).flatMap f).length = k * c := by
  intro k
  induction k with
  | zero => simp
  | succ n ih =>
    rw [List.range_succ, List.flatMap_append, List.length_append, ih]
    simp [h, Nat.succ_mul]

theorem midVertsAt_length (norm : V3 → V3) (m : Mesh) (tri : Nat) :
    (midVertsAt norm m tri).length = 9 := rfl

theorem subTrisAt_length (nv : Nat) (ts : List Nat) (tri : Nat) :
    (subTrisAt nv ts tri).length = 12 := rfl

theorem subTrisAtIdeal_length (nv : Nat) (ts : List Nat) (tri : Nat) :
    (subTrisAtIdeal nv ts tri).length = 12 := rfl

theorem subdivide_vertices_eq (norm : V3 → V3) (m : Mesh) :
    (subdivide norm m).vertices
      = m.vertices ++ (List.range (m.triangles.length / 3)).flatMap (midVertsAt norm m) := rfl

theorem subdivide_vertices_length (norm : V3 → V3) (m : Mesh) :
    (subdivide norm m).vertices.length
      = m.vertices.length + (m.triangles.length / 3) * 9 := by
  rw [subdivide_vertices_eq, List.length_append,
    length_flatMap_range_const _ 9 (fun i => midVertsAt_length norm m i)]

theorem subdivide_triangles_length (norm : V3 → V3) (m : Mesh) :
    (subdivide norm m).triangles.length = (m.triangles.length / 3) * 12 := by
  show ((List.range (m.triangles.length / 3)).flatMap
    (subTrisAt (m.vertices.length / 3) m.triangles)).length = _
  rw [length_flatMap_range_const _ 12 (fun i => subTrisAt_length _ _ i)]

theorem subdivideIdeal_vertices_length (norm : V3 → V3) (m : Mesh) :
    (subdivideIdeal norm m).vertices.length
      = m.vertices.length + (m.triangles.length / 3) * 9 := by
  show (m.vertices ++ (List.range (m.triangles.length / 3)).flatMap
    (midVertsAt norm m)).length = _
  rw [List.length_append,
    length_flatMap_range_const _ 9 (fun i => midVertsAt_length norm m i)]

theorem subdivideIdeal_triangles_length (norm : V3 → V3) (m : Mesh) :
    (subdivideIdeal norm m).triangles.length = (m.triangles.length / 3) * 12 := by
  show ((List.range (m.triangles.length / 3)).flatMap
    (subTrisAtIdeal (m.vertices.length / 3) m.triangles)).length = _
  rw [length_flatMap_range_const _ 12 (fun i => subTrisAtIdeal_length _ _ i)]

theorem icosphereMesh_triangles_length (norm : V3 → V3) (n : Nat) :
    (icosphereMesh norm n).triangles.length = 60 * 4 ^ n := by
  induction n with
  | zero => rfl
  | succ n ih =>
    show (subdivide norm (icosphereMesh norm n)).triangles.length = _
    rw [subdivide_triangles_length, ih]
    have h3 : (60 : Nat) * 4 ^ n = 3 * (20 * 4 ^ n) := by ring
    rw [h3, Nat.mul_div_cancel_left _ (by norm_num)]
    ring

theorem icosphereMesh_vertices_length (norm : V3 → V3) (n : Nat) :
    (icosphereMesh norm n).vertices.length = 3 * (12 + 20 * (4 ^ n - 1)) := by
  induction n with
  | zero => rfl
  | succ n ih =>
    show (subdivide norm (icosphereMesh norm n)).vertices.length = _
    rw [subdivide_vertices_length, ih, icosphereMesh_triangles_length]
    have h3 : (60 : Nat) * 4 ^ n = 3 * (20 * 4 ^ n) := by ring
    rw [h3, Nat.mul_div_cancel_left _ (by norm_num)]
    have hx : 1 ≤ 4 ^ n := Nat.one_le_pow _ _ (by norm_num)
    have h4 : 4 ^ (n + 1) = 4 * 4 ^ n := by ring
    omega

theorem icosphereMeshIdeal_triangles_length (norm : V3 → V3) (n : Nat) :
    (icosphereMeshIdeal norm n).triangles.length = 60 * 4 ^ n := by
  induction n with
  | zero => rfl
  | succ n ih =>
    show (subdivideIdeal norm (icosphereMeshIdeal norm n)).triangles.length = _
    rw [subdivideIdeal_triangles_length, ih]
    have h3 : (60 : Nat) * 4 ^ n = 3 * (20 * 4 ^ n) := by ring
    rw [h3, Nat.mul_div_cancel_left _ (by norm_num)]
    ring

theorem icosphereMeshIdeal_vertices_length (norm : V3 → V3) (n : Nat) :
    (icosphereMeshIdeal norm n).vertices.length = 3 * (12 + 20 * (4 ^ n - 1)) := by
  induction n with
  | zero => rfl
  | succ n ih =>
    show (subdivideIdeal norm (icosphereMeshIdeal norm n)).vertices.length = _
    rw [subdivideIdeal_vertices_length, ih, icosphereMeshIdeal_triangles_length]
    have h3 : (60 : Nat) * 4 ^ n = 3 * (20 * 4 ^ n) := by ring
    rw [h3, Nat.mul_div_cancel_left _ (by norm_num)]
    have hx : 1 ≤ 4 ^ n := Nat.one_le_pow _ _ (by norm_num)
    have h4 : 4 ^ (n + 1) = 4 * 4 ^ n := by ring
    omega

theorem icosphereMesh_triCount (norm : V3 → V3) (n : Nat) :
    (icosphereMesh norm n).triangles.length / 3 = 20 * 4 ^ n := by
  rw [icosphereMesh_triangles_length]
  have h3 : (60 : Nat) * 4 ^ n = 3 * (20 * 4 ^ n) := by ring
  rw [h3, Nat.mul_div_cancel_left _ (by norm_num)]

theorem icosphereMesh_vertCount (norm : V3 → V3) (n : Nat) :
    (icosphereMesh norm n).vertices.length / 3 = 12 + 20 * (4 ^ n - 1) := by
  rw [icosphereMesh_vertices_length, Nat.mul_div_cancel_left _ (by norm_num)]

theorem icosphereMeshIdeal_vertCount (norm : V3 → V3) (n : Nat) :
    (icosphereMeshIdeal norm n).vertices.length / 3 = 12 + 20 * (4 ^ n - 1) := by
  rw [icosphereMeshIdeal_vertices_length, Nat.mul_div_cancel_left _ (by norm_num)]

theorem tangentsOf_length (tq : V3 → ℚ × ℚ × ℚ × ℚ) (m : Mesh) :
    (tangentsOf tq m).length = (m.vertices.length / 3) * 4 := by
  show ((List.range (m.vertices.length / 3)).flatMap _).length = _
  apply length_flatMap_range_const
  intro i
  rfl

/-! ## Stored indices are the intended indices reduced modulo 2^16 -/

theorem getD_map_mod (l : List Nat) (i : Nat) :
    (l.map (fun e => e % 65536)).getD i 0 = l.getD i 0 % 65536 := by
  induction l generalizing i with
  | nil => simp [List.getD]
  | cons a t ih =>
    cases i with
    | zero => rfl
    | succ j => simpa using ih j

theorem subTrisAt_map (nv : Nat) (ts : List Nat) (tri : Nat) :
    subTrisAt nv (ts.map (fun e => e % 65536)) tri
      = (subTrisAtIdeal nv ts tri).map (fun e => e % 65536) := by
  simp only [subTrisAt, subTrisAtIdeal, getD_map_mod, List.map_cons, List.map_nil,
    Nat.mod_mod_of_dvd _ dvd_rfl]

theorem icosphereMesh_triangles_eq_ideal (norm : V3 → V3) (n : Nat) :
    (icosphereMesh norm n).triangles
      = ((icosphereMeshIdeal norm n).triangles).map (fun e => e % 65536) := by
  induction n with
  | zero =>
    show baseTriangles = baseTriangles.map (fun e => e % 65536)
    decide
  | succ n ih =>
    show (List.range ((icosphereMesh norm n).triangles.length / 3)).flatMap
        (subTrisAt ((icosphereMesh norm n).vertices.length / 3)
          (icosphereMesh norm n).triangles)
      = ((List.range ((icosphereMeshIdeal norm n).triangles.length / 3)).flatMap
          (subTrisAtIdeal ((icosphereMeshIdeal norm n).vertices.length / 3)
            (icosphereMeshIdeal norm n).triangles)).map (fun e => e % 65536)
    rw [List.map_flatMap, icosphereMesh_triCount, icosphereMesh_vertCount, ih,
      icosphereMeshIdeal_triangles_length, icosphereMeshIdeal_vertCount]
    have h3 : (60 : Nat) * 4 ^ n = 3 * (20 * 4 ^ n) := by ring
    rw [h3, Nat.mul_div_cancel_left _ (by norm_num)]
    have hfun : subTrisAt (12 + 20 * (4 ^ n - 1))
        (((icosphereMeshIdeal norm n).triangles).map (fun e => e % 65536))
        = fun tri => (subTrisAtIdeal (12 + 20 * (4 ^ n - 1))
            (icosphereMeshIdeal norm n).triangles tri).map (fun e => e % 65536) :=
      funext (subTrisAt_map _ _)
    rw [hfun]

/-! ## Triangle index bounds -/

theorem mem_subTrisAt {nv : Nat} {ts : List Nat} {tri e : Nat}
    (h : e ∈ subTrisAt nv ts tri) :
    (∃ r, r < 3 ∧ e = ts.getD (3*tri + r) 0 % 65536) ∨
    (∃ r, r < 3 ∧ e = (nv + 3*tri + r) % 65536) := by
  simp only [subTrisAt, List.mem_cons, List.not_mem_nil, or_false] at h
  rcases h with h|h|h|h|h|h|h|h|h|h|h|h
  · exact Or.inl ⟨0, by norm_num, by simpa using h⟩
  · exact Or.inr ⟨0, by norm_num, by simpa using h⟩
  · exact Or.inr ⟨2, by norm_num, by simpa using h⟩
  · exact Or.inr ⟨0, by norm_num, by simpa using h⟩
  · exact Or.inl ⟨1, by norm_num, by simpa using h⟩
  · exact Or.inr ⟨1, by norm_num, by simpa using h⟩
  · exact Or.inr ⟨2, by norm_num, by simpa using h⟩
  · exact Or.inr ⟨0, by norm_num, by simpa using h⟩
  · exact Or.inr ⟨1, by norm_num, by simpa using h⟩
  · exact Or.inl ⟨2, by norm_num, by simpa using h⟩
  · exact Or.inr ⟨2, by norm_num, by simpa using h⟩
  · exact Or.inr ⟨1, by norm_num, by simpa using h⟩

theorem icosphere_tri_entries_lt (norm : V3 → V3) :
    ∀ n, (icosphereMesh norm n).vertices.length / 3 ≤ 65536 →
      ∀ e ∈ (icosphereMesh norm n).triangles,
        e < (icosphereMesh norm n).vertices.length / 3 := by
  intro n
  induction n with
  | zero =>
    intro _ e he
    rw [icosphereMesh_vertCount]
    have hb : ∀ x ∈ baseTriangles, x < 12 := by decide
    have h0 : (12 + 20 * (4 ^ 0 - 1) : Nat) = 12 := by norm_num
    rw [h0]
    exact hb e he
  | succ n ih =>
    intro hbound e he
    rw [icosphereMesh_vertCount] at hbound ⊢
    have hx : 1 ≤ 4 ^ n := Nat.one_le_pow _ _ (by norm_num)
    have h4 : 4 ^ (n + 1) = 4 * 4 ^ n := by ring
    have hvcn : (icosphereMesh norm n).vertices.length / 3 = 12 + 20 * (4 ^ n - 1) :=
      icosphereMesh_vertCount norm n
    have he' : e ∈ (List.range ((icosphereMesh norm n).triangles.length / 3)).flatMap
        (subTrisAt ((icosphereMesh norm n).vertices.length / 3)
          (icosphereMesh norm n).triangles) := he
    rw [List.mem_flatMap] at he'
    obtain ⟨tri, htri, hmem⟩ := he'
    rw [List.mem_range, icosphereMesh_triCount] at htri
    rcases mem_subTrisAt hmem with ⟨r, hr, hev⟩ | ⟨r, hr, hev⟩
    · have hlen : 3 * tri + r < (icosphereMesh norm n).triangles.length := by
        rw [icosphereMesh_triangles_length]; omega
      have hmemts : (icosphereMesh norm n).triangles.getD (3 * tri + r) 0
          ∈ (icosphereMesh norm n).triangles := by
        rw [List.getD_eq_getElem _ _ hlen]
        exact List.getElem_mem _
      have hbn : (icosphereMesh norm n).vertices.length / 3 ≤ 65536 := by
        rw [hvcn]; omega
      have hold := ih hbn _ hmemts
      rw [hvcn] at hold hbn
      rw [hev, Nat.mod_eq_of_lt (by omega)]
      omega
    · rw [hvcn] at hev
      rw [hev, Nat.mod_eq_of_lt (by omega)]
      omega

theorem mem_subTrisAtIdeal_top (nv : Nat) (ts : List Nat) (tri : Nat) :
    (nv + 3 * tri + 2) ∈ subTrisAtIdeal nv ts tri := by
  simp [subTrisAtIdeal]

theorem ideal_has_intended_ge (norm : V3 → V3) (n : Nat) (h6 : 6 ≤ n) :
    ∃ e ∈ (icosphereMeshIdeal norm n).triangles, 65536 ≤ e := by
  obtain ⟨m, rfl⟩ : ∃ m, n = m + 1 := ⟨n - 1, by omega⟩
  refine ⟨(icosphereMeshIdeal norm m).vertices.length / 3 + 3 * (20 * 4 ^ m - 1) + 2,
    ?_, ?_⟩
  · show _ ∈ (List.range ((icosphereMeshIdeal norm m).triangles.length / 3)).flatMap
      (subTrisAtIdeal ((icosphereMeshIdeal norm m).vertices.length / 3)
        (icosphereMeshIdeal norm m).triangles)
    rw [List.mem_flatMap]
    refine ⟨20 * 4 ^ m - 1, ?_, mem_subTrisAtIdeal_top _ _ _⟩
    rw [List.mem_range, icosphereMeshIdeal_triangles_length]
    have hx : 1 ≤ 4 ^ m := Nat.one_le_pow _ _ (by norm_num)
    have h3 : (60 : Nat) * 4 ^ m = 3 * (20 * 4 ^ m) := by ring
    rw [h3, Nat.mul_div_cancel_left _ (by norm_num)]
    omega
  · rw [icosphereMeshIdeal_vertCount]
    have hpow : 4 ^ 5 ≤ 4 ^ m := Nat.pow_le_pow_right (by norm_num) (by omega)
    have h45 : (4 : Nat) ^ 5 = 1024 := by norm_num
    omega

theorem vertCount_ge_of_ge_six (norm : V3 → V3) (n : Nat) (h6 : 6 ≤ n) :
    65536 < (icosphereMesh norm n).vertices.length / 3 := by
  rw [icosphereMesh_vertCount]
  have hpow : 4 ^ 6 ≤ 4 ^ n := Nat.pow_le_pow_right (by norm_num) h6
  have h46 : (4 : Nat) ^ 6 = 4096 := by norm_num
  omega

/-! ## Vertex prefix preservation -/

theorem subdivide_vertices_take (norm : V3 → V3) (m : Mesh) :
    (subdivide norm m).vertices.take m.vertices.length = m.vertices := by
  rw [subdivide_vertices_eq, List.take_left]

theorem icosphereMesh_vertices_take (norm : V3 → V3) (n k : Nat) :
    (icosphereMesh norm (n + k)).vertices.take (icosphereMesh norm n).vertices.length
      = (icosphereMesh norm n).vertices := by
  induction k with
  | zero => exact List.take_length _
  | succ k ih =>
    have hle : (icosphereMesh norm n).vertices.length
        ≤ (icosphereMesh norm (n + k)).vertices.length := by
      rw [icosphereMesh_vertices_length, icosphereMesh_vertices_length]
      have hpow : 4 ^ n ≤ 4 ^ (n + k) := Nat.pow_le_pow_right (by norm_num) (by omega)
      have hx : 1 ≤ 4 ^ n := Nat.one_le_pow _ _ (by norm_num)
      omega
    show (subdivide norm (icosphereMesh norm (n + k))).vertices.take _ = _
    rw [subdivide_vertices_eq, List.take_append_of_le_length hle, ih]

theorem IcoSphere_vertices (norm : V3 → V3) (tq : V3 → ℚ × ℚ × ℚ × ℚ) (n : Nat) :
    (Filament.IcoSphere norm tq n).vertices = (icosphereMesh norm n).vertices := rfl

theorem IcoSphere_triangles (norm : V3 → V3) (tq : V3 → ℚ × ℚ × ℚ × ℚ) (n : Nat) :
    (Filament.IcoSphere norm tq n).triangles = (icosphereMesh norm n).triangles := rfl

theorem IcoSphere_tangents (norm : V3 → V3) (tq : V3 → ℚ × ℚ × ℚ × ℚ) (n : Nat) :
    (Filament.IcoSphere norm tq n).tangents = tangentsOf tq (icosphereMesh norm n) := rfl

/-! ## Claims -/

/-- Claim C1: for every subdivision count N, IcoSphere starts from a base
icosahedron of 12 vertices and 20 triangles and applies the subdivision step
N times; each step splits every triangle into 4, so after N steps the
triangle count is 20*4^N, and the vertex count satisfies the recurrence
vertices_N = vertices_(N-1) + 3*triangles_(N-1). -/
theorem spec_C1 (norm : V3 → V3) (N : Nat) (m : Mesh) :
    icosphereMesh norm 0 = { vertices := baseVertices, triangles := baseTriangles }
    ∧ baseVertices.length / 3 = 12
    ∧ baseTriangles.length / 3 = 20
    ∧ icosphereMesh norm (N + 1) = subdivide norm (icosphereMesh norm N)
    ∧ (subdivide norm m).triangles.length / 3 = 4 * (m.triangles.length / 3)
    ∧ (icosphereMesh norm N).triangles.length / 3 = 20 * 4 ^ N
    ∧ (icosphereMesh norm (N + 1)).vertices.length / 3
        = (icosphereMesh norm N).vertices.length / 3
          + 3 * ((icosphereMesh norm N).triangles.length / 3) := by
  refine ⟨rfl, rfl, rfl, rfl, ?_, icosphereMesh_triCount norm N, ?_⟩
  · rw [subdivide_triangles_length]
    omega
  · rw [icosphereMesh_vertCount, icosphereMesh_vertCount, icosphereMesh_triCount]
    have hx : 1 ≤ 4 ^ N := Nat.one_le_pow _ _ (by norm_num)
    have h4 : 4 ^ (N + 1) = 4 * 4 ^ N := by ring
    omega

/-- Claim C2 (counterexample): at N = 1 the vertex count of IcoSphere(1) is
72, not the claimed 12 + 10*(4^1 - 1) = 42; the code creates three new
vertices per triangle without sharing edge midpoints between neighbouring
triangles. -/
theorem spec_C2_counterexample :
    (Filament.IcoSphere (fun v => v) (fun _ => (0, 0, 0, 1)) 1).vertices.length / 3 = 72
    ∧ (72 : Nat) ≠ 12 + 10 * (4 ^ 1 - 1) := by
  constructor
  · rw [IcoSphere_vertices, icosphereMesh_vertCount]
    norm_num
  · norm_num

/-- Claim C2 (amended): for every subdivision count N, the vertex count of
IcoSphere(N) (vertices.length / 3) equals 12 + 20*(4^N - 1): the code appends
three unshared midpoints per triangle, so the increment per step is
3*triangles, not the edge count of a midpoint-sharing subdivision. -/
theorem spec_C2 (norm : V3 → V3) (tq : V3 → ℚ × ℚ × ℚ × ℚ) (N : Nat) :
    (Filament.IcoSphere norm tq N).vertices.length / 3 = 12 + 20 * (4 ^ N - 1) := by
  rw [IcoSphere_vertices]
  exact icosphereMesh_vertCount norm N

/-- Claim C3: packSnorm16 first clamps its argument to [-1, 1] and then
rounds the clamped value times 32767; packSnorm16(1) = 32767,
packSnorm16(-1) = -32767, packSnorm16(0) = 0, and every value outside
[-1, 1] packs like the nearer interval endpoint. -/
theorem spec_C3 (v : ℚ) :
    Filament.packSnorm16 v = jsRound (clamp v (-1) 1 * 32767)
    ∧ Filament.packSnorm16 1 = 32767
    ∧ Filament.packSnorm16 (-1) = -32767
    ∧ Filament.packSnorm16 0 = 0
    ∧ (1 < v → Filament.packSnorm16 v = Filament.packSnorm16 1)
    ∧ (v < -1 → Filament.packSnorm16 v = Filament.packSnorm16 (-1)) := by
  refine ⟨rfl, ?_, ?_, ?_, ?_, ?_⟩
  · show jsRound (clamp 1 (-1) 1 * 32767) = 32767
    rw [show clamp 1 (-1) 1 = 1 by rw [clamp]; norm_num]
    show Int.floor ((1 : ℚ) * 32767 + 1/2) = 32767
    norm_num
  · show jsRound (clamp (-1) (-1) 1 * 32767) = -32767
    rw [show clamp (-1) (-1) 1 = -1 by rw [clamp]; norm_num]
    show Int.floor ((-1 : ℚ) * 32767 + 1/2) = -32767
    norm_num
  · show jsRound (clamp 0 (-1) 1 * 32767) = 0
    rw [show clamp 0 (-1) 1 = 0 by rw [clamp]; norm_num]
    show Int.floor ((0 : ℚ) * 32767 + 1/2) = 0
    norm_num
  · intro h
    have hv : clamp v (-1) 1 = 1 := by
      rw [clamp, min_eq_left (le_of_lt h)]
      norm_num
    have h1 : clamp 1 (-1) 1 = 1 := by rw [clamp]; norm_num
    show jsRound (clamp v (-1) 1 * 32767) = jsRound (clamp 1 (-1) 1 * 32767)
    rw [hv, h1]
  · intro h
    have hv : clamp v (-1) 1 = -1 := by
      rw [clamp]
      have hmin : min 1 v = v := min_eq_right (by linarith)
      rw [hmin, max_eq_right (le_of_lt h)]
    have h1 : clamp (-1) (-1) 1 = -1 := by rw [clamp]; norm_num
    show jsRound (clamp v (-1) 1 * 32767) = jsRound (clamp (-1) (-1) 1 * 32767)
    rw [hv, h1]

/-- Claim C3 (witness): the endpoint equations at the concrete out-of-range
inputs 2 and -2. -/
theorem spec_C3_witness :
    (1 : ℚ) < 2 ∧ (-2 : ℚ) < -1
    ∧ Filament.packSnorm16 2 = Filament.packSnorm16 1
    ∧ Filament.packSnorm16 (-2) = Filament.packSnorm16 (-1) :=
  ⟨by norm_num, by norm_num, (spec_C3 2).2.2.2.2.1 (by norm_num),
    (spec_C3 (-2)).2.2.2.2.2 (by norm_num)⟩

/-- Claim C8: the arrays exposed by IcoSphere(N) satisfy the shape invariant:
vertices.length and triangles.length are multiples of 3, and tangents.length
equals 4 * (vertices.length / 3), one packed quaternion per vertex. -/
theorem spec_C8 (norm : V3 → V3) (tq : V3 → ℚ × ℚ × ℚ × ℚ) (N : Nat) :
    (Filament.IcoSphere norm tq N).vertices.length % 3 = 0
    ∧ (Filament.IcoSphere norm tq N).triangles.length % 3 = 0
    ∧ (Filament.IcoSphere norm tq N).tangents.length
        = 4 * ((Filament.IcoSphere norm tq N).vertices.length / 3) := by
  rw [IcoSphere_vertices, IcoSphere_triangles, IcoSphere_tangents,
    icosphereMesh_vertices_length, icosphereMesh_triangles_length, tangentsOf_length,
    icosphereMesh_vertices_length]
  refine ⟨by omega, ?_, by omega⟩
  have h3 : (60 : Nat) * 4 ^ N = 3 * (20 * 4 ^ N) := by ring
  rw [h3]
  omega

/-- Claim C9: for N at most 5 every triangle entry is a valid vertex index
below vertices.length / 3; from N = 6 on the vertex count exceeds 2^16, the
stored Uint16Array entries are the intended indices reduced modulo 2^16, and
some intended index is at least 2^16, so the stored entries no longer denote
the intended vertices. -/
theorem spec_C9 (norm : V3 → V3) (N : Nat) :
    (N ≤ 5 → ∀ e ∈ (icosphereMesh norm N).triangles,
        e < (icosphereMesh norm N).vertices.length / 3)
    ∧ (6 ≤ N →
        65536 < (icosphereMesh norm N).vertices.length / 3
        ∧ (icosphereMesh norm N).triangles
            = ((icosphereMeshIdeal norm N).triangles).map (fun e => e % 65536)
        ∧ ∃ e ∈ (icosphereMeshIdeal norm N).triangles, 65536 ≤ e) := by
  constructor
  · intro h5
    apply icosphere_tri_entries_lt
    rw [icosphereMesh_vertCount]
    have hpow : 4 ^ N ≤ 4 ^ 5 := Nat.pow_le_pow_right (by norm_num) h5
    have h45 : (4 : Nat) ^ 5 = 1024 := by norm_num
    omega
  · intro h6
    exact ⟨vertCount_ge_of_ge_six norm N h6, icosphereMesh_triangles_eq_ideal norm N,
      ideal_has_intended_ge norm N h6⟩

/-- Claim C9 (witness): both branches at the boundary, with the identity in
place of the external normalization: validity at N = 5 and overflow at N = 6. -/
theorem spec_C9_witness :
    ((5 : Nat) ≤ 5 ∧ ∀ e ∈ (icosphereMesh (fun v => v) 5).triangles,
        e < (icosphereMesh (fun v => v) 5).vertices.length / 3)
    ∧ ((6 : Nat) ≤ 6
        ∧ 65536 < (icosphereMesh (fun v => v) 6).vertices.length / 3
        ∧ (icosphereMesh (fun v => v) 6).triangles
            = ((icosphereMeshIdeal (fun v => v) 6).triangles).map (fun e => e % 65536)
        ∧ ∃ e ∈ (icosphereMeshIdeal (fun v => v) 6).triangles, 65536 ≤ e) :=
  ⟨⟨by norm_num, (spec_C9 (fun v => v) 5).1 (by norm_num)⟩,
   by norm_num, (spec_C9 (fun v => v) 6).2 (by norm_num)⟩

/-- Claim C10: each subdivide call preserves all pre-existing vertices as a
prefix of the new vertex array, so a vertex's coordinates and index never
change across subdivision levels. -/
theorem spec_C10 (norm : V3 → V3) :
    (∀ m : Mesh, (subdivide norm m).vertices.take m.vertices.length = m.vertices)
    ∧ ∀ N k : Nat, (icosphereMesh norm (N + k)).vertices.take
        (icosphereMesh norm N).vertices.length = (icosphereMesh norm N).vertices :=
  ⟨subdivide_vertices_take norm, icosphereMesh_vertices_take norm⟩

/-- Claim C4: for every KTX bundle whose glInternalFormat is neither gl.RGB
nor gl.RGBA, createTextureFromKtx logs an error and returns null (modelled as
Except.error carrying the logged message) without building any texture; for
the two supported formats it returns the built texture. -/
theorem spec_C4 (ktx : KtxBundle) (rgbm : Bool) :
    (ktx.info.glInternalFormat ≠ GL_RGB → ktx.info.glInternalFormat ≠ GL_RGBA →
      Filament.createTextureFromKtx ktx rgbm = Except.error "Unsupported KTX format.")
    ∧ ((ktx.info.glInternalFormat = GL_RGB ∨ ktx.info.glInternalFormat = GL_RGBA) →
      ∃ r, Filament.createTextureFromKtx ktx rgbm = Except.ok r) := by
  constructor
  · intro h1 h2
    simp [Filament.createTextureFromKtx, h1, h2]
  · rintro (h | h)
    · have hok : Filament.createTextureFromKtx ktx rgbm = Except.ok
          (⟨ktx.info.pixelWidth, ktx.info.pixelHeight, ktx.numMipLevels,
            if ktx.isCubemap then SamplerKind.SAMPLER_CUBEMAP else SamplerKind.SAMPLER_2D,
            TextureInternalFormat.RGB8, rgbm⟩,
           PixelDataFormat.RGB, PixelDataType.UBYTE) := by
        simp [Filament.createTextureFromKtx, h]
      exact ⟨_, hok⟩
    · have hok : Filament.createTextureFromKtx ktx rgbm = Except.ok
          (⟨ktx.info.pixelWidth, ktx.info.pixelHeight, ktx.numMipLevels,
            if ktx.isCubemap then SamplerKind.SAMPLER_CUBEMAP else SamplerKind.SAMPLER_2D,
            TextureInternalFormat.RGBA8, rgbm⟩,
           (if rgbm then PixelDataFormat.RGBM else PixelDataFormat.RGBA),
           PixelDataType.UBYTE) := by
        simp [Filament.createTextureFromKtx, h, GL_RGB, GL_RGBA]
      exact ⟨_, hok⟩

/-- A concrete KTX bundle with an unsupported internal format (gl.ALPHA). -/
def ktxAlpha : KtxBundle :=
  { info := { glInternalFormat := 0x1906, pixelWidth := 16, pixelHeight := 16 },
    numMipLevels := 1, isCubemap := false }

/-- A concrete KTX bundle with internal format gl.RGB. -/
def ktxRgb : KtxBundle :=
  { info := { glInternalFormat := 0x1907, pixelWidth := 16, pixelHeight := 16 },
    numMipLevels := 1, isCubemap := false }

/-- Claim C4 (witness): the gl.ALPHA bundle is rejected with the logged
message, and the gl.RGB bundle is accepted. -/
theorem spec_C4_witness :
    ktxAlpha.info.glInternalFormat ≠ GL_RGB
    ∧ ktxAlpha.info.glInternalFormat ≠ GL_RGBA
    ∧ Filament.createTextureFromKtx ktxAlpha false
        = Except.error "Unsupported KTX format."
    ∧ ∃ r, Filament.createTextureFromKtx ktxRgb false = Except.ok r :=
  ⟨by decide, by decide,
   (spec_C4 ktxAlpha false).1 (by decide) (by decide),
   (spec_C4 ktxRgb false).2 (Or.inl (by decide))⟩

/-- Claim C7: Buffer and PixelBuffer assert on malformed inputs: the asserted
condition fails exactly when the typed array is not ArrayBuffer-backed or has
byteLength 0, and passes for every ArrayBuffer-backed non-empty array. -/
theorem spec_C7 (ta : TypedArray) :
    (Filament.bufferAsserts ta = false ↔ (ta.abBacked = false ∨ ta.byteLength = 0))
    ∧ (Filament.pixelBufferAsserts ta = false ↔ (ta.abBacked = false ∨ ta.byteLength = 0))
    ∧ (ta.abBacked = true → 0 < ta.byteLength →
        Filament.bufferAsserts ta = true ∧ Filament.pixelBufferAsserts ta = true) := by
  refine ⟨?_, ?_, ?_⟩
  · rw [Filament.bufferAsserts]
    cases hb : ta.abBacked <;> simp
  · rw [Filament.pixelBufferAsserts]
    cases hb : ta.abBacked <;> simp
  · intro hb hl
    rw [Filament.bufferAsserts, Filament.pixelBufferAsserts, hb]
    simp [hl]

/-- A concrete ArrayBuffer-backed non-empty Uint8Array. -/
def taFourBytes : TypedArray :=
  { store := TAStore.own [1, 2, 3, 4], byteOffset := 0, length := 4,
    kind := ElemKind.u8, abBacked := true }

/-- A concrete ArrayBuffer-backed empty Uint8Array. -/
def taEmpty : TypedArray :=
  { store := TAStore.own [], byteOffset := 0, length := 0,
    kind := ElemKind.u8, abBacked := true }

/-- Claim C7 (witness): the assertions pass on the concrete four-byte array,
and the failure condition is exact on the concrete empty array. -/
theorem spec_C7_witness :
    taFourBytes.abBacked = true
    ∧ 0 < taFourBytes.byteLength
    ∧ (Filament.bufferAsserts taFourBytes = true
       ∧ Filament.pixelBufferAsserts taFourBytes = true)
    ∧ (Filament.bufferAsserts taEmpty = false
        ↔ (taEmpty.abBacked = false ∨ taEmpty.byteLength = 0)) :=
  ⟨rfl, by decide, (spec_C7 taFourBytes).2.2 rfl (by decide), (spec_C7 taEmpty).1⟩

/-- A concrete Float32Array of one element viewing the WASM heap; the four
heap bytes are the IEEE-754 float32 encoding of 1.5. -/
def taHeapF32 : TypedArray :=
  { store := TAStore.heap, byteOffset := 0, length := 1,
    kind := ElemKind.f32, abBacked := true }

/-- The float32 decoder for the concrete heap [0, 0, 192, 63] (1.5f). -/
def fdec15 : List Nat → ℚ := fun _ => 3 / 2

/-- Claim C5 (failing input): for a one-element Float32Array viewing the heap
bytes [0, 0, 192, 63] (1.5f), the descriptor receives the single byte [1]:
`new Uint8Array(typedarray)` converts per element (ToUint8(1.5) = 1) instead
of copying the four bytes, so the result does not equal the input array's
bytes at call time even with the heap unchanged. -/
theorem spec_C5_bug :
    Filament.Buffer fdec15 [0, 0, 192, 63] [0, 0, 192, 63] taHeapF32 = [1]
    ∧ Filament.PixelBuffer fdec15 [0, 0, 192, 63] [0, 0, 192, 63] taHeapF32
        PixelDataFormat.RGBA PixelDataType.UBYTE = [1]
    ∧ bytesOf [0, 0, 192, 63] taHeapF32 = [0, 0, 192, 63]
    ∧ ([1] : List Nat) ≠ [0, 0, 192, 63] := by
  have h32 : jsToUint8 (fdec15 [0, 0, 192, 63]) = 1 := by
    rw [fdec15, jsToUint8, jsTrunc, if_pos (by norm_num)]
    norm_num
  refine ⟨?_, ?_, by decide, by decide⟩
  · show bytesOf [0, 0, 192, 63] (convertToU8 fdec15 [0, 0, 192, 63] taHeapF32) = [1]
    rw [convertToU8]
    show ((List.range 1).map fun i =>
        jsToUint8 (decodeElem fdec15 taHeapF32.kind
          (elemBytes [0, 0, 192, 63] taHeapF32 i))).take 1 = [1]
    rw [show List.range 1 = [0] from rfl, List.map_singleton]
    show [jsToUint8 (fdec15 (elemBytes [0, 0, 192, 63] taHeapF32 0))].take 1 = [1]
    rw [show elemBytes [0, 0, 192, 63] taHeapF32 0 = [0, 0, 192, 63] from by decide]
    rw [show jsToUint8 (fdec15 [0, 0, 192, 63]) = 1 from h32]
    rfl
  · show bytesOf [0, 0, 192, 63] (convertToU8 fdec15 [0, 0, 192, 63] taHeapF32) = [1]
    rw [convertToU8]
    show ((List.range 1).map fun i =>
        jsToUint8 (decodeElem fdec15 taHeapF32.kind
          (elemBytes [0, 0, 192, 63] taHeapF32 i))).take 1 = [1]
    rw [show List.range 1 = [0] from rfl, List.map_singleton]
    show [jsToUint8 (fdec15 (elemBytes [0, 0, 192, 63] taHeapF32 0))].take 1 = [1]
    rw [show elemBytes [0, 0, 192, 63] taHeapF32 0 = [0, 0, 192, 63] from by decide]
    rw [show jsToUint8 (fdec15 [0, 0, 192, 63]) = 1 from h32]
    rfl
